import Mathlib

/-!
Shallow embedding of `letpot/deviceclient.py` (class `LetPotDeviceClient`):
the frame encoder `_generate_message_packets`, the credential derivation in
`subscribe`, the connection life-cycle step (error classification, backoff,
counter resets), the pending-status baseline `_get_publish_status`, the
inbound dispatch loop `_handle_messages`, and the `set_*` command API.

Machine integers do not overflow in the source (Python ints), so bytes are
modelled as `Nat`; a frame is its list of byte values, rendered to the wire
as lowercase hex pairs by `packet_hex`.
-/

namespace LetPot

/-- Constant `LetPotDeviceClient.MTU` (deviceclient.py line 35). -/
def MTU : Nat := 128

/-- Source line 75: `max_packet_size = self.MTU - 6`. -/
def max_packet_size : Nat := MTU - 6

/-- Source line 76: `num_packets = (length + max_packet_size - 1) // max_packet_size`. -/
def num_packets (message : List Nat) : Nat :=
  (message.length + max_packet_size - 1) / max_packet_size

/-- The payload slice of frame `n`: `message[start:end]` with
`start = n * max_packet_size` and `end = min(start + max_packet_size, length)`
(lines 80-82); Python slicing clamps at the list end, which is exactly
`(message.drop start).take max_packet_size`. -/
def chunk (message : List Nat) (n : Nat) : List Nat :=
  (message.drop (n * max_packet_size)).take max_packet_size

/-- The byte list of one frame built by the loop body of
`_generate_message_packets` (lines 84-101): `messageId` is the value of
`self._message_id` when frame `n` is emitted.  A continuation frame
(`n < num_packets - 1`) has flag byte 16, length byte `len(payload) + 4` and
the two total-length bytes `length % 256, length // 256` before the chunk;
the last frame has flag byte 0 and length byte `len(payload)`. -/
def packet_bytes (maintype subtype : Nat) (message : List Nat) (messageId : Nat)
    (numPackets n : Nat) : List Nat :=
  let payload := chunk message n
  if n < numPackets - 1 then
    [(subtype <<< 2) ||| maintype, 16, messageId, payload.length + 4,
      message.length % 256, message.length / 256] ++ payload
  else
    [(subtype <<< 2) ||| maintype, 0, messageId, payload.length] ++ payload

/-- Function `_generate_message_packets` (lines 70-106) at the byte level: the loop over
`range(num_packets)` appends one frame per iteration and increments
`self._message_id` once per frame.  The state `self._message_id` is passed in
and returned; frames are byte lists, hex-rendered by `packet_hex` below. -/
def generate_message_packets (maintype subtype : Nat) (message : List Nat)
    (messageId : Nat) : List (List Nat) × Nat :=
  (List.range (num_packets message)).foldl
    (fun st n =>
      (st.1 ++ [packet_bytes maintype subtype message st.2 (num_packets message) n],
       st.2 + 1))
    ([], messageId)

/-- Python `f"{byte:02x}"` (line 103): lowercase hex, zero-padded to width 2. -/
def byte_hex (b : Nat) : String :=
  let ds := Nat.toDigits 16 b
  String.mk (List.replicate (2 - ds.length) '0' ++ ds)

/-- Source line 103: `"".join(f"{byte:02x}" for byte in packet)`. -/
def packet_hex (packet : List Nat) : String :=
  String.join (packet.map byte_hex)

/-- Wire form of `_generate_message_packets`, its actual return type: the hex strings
put on the wire, plus the updated `self._message_id`. -/
def generate_message_packets_wire (maintype subtype : Nat) (message : List Nat)
    (messageId : Nat) : List String × Nat :=
  let r := generate_message_packets maintype subtype message messageId
  (r.1.map packet_hex, r.2)

lemma generate_foldl_aux (maintype subtype : Nat) (message : List Nat) (num : Nat)
    (k : Nat) (acc : List (List Nat)) (messageId : Nat) :
    (List.range k).foldl
      (fun st n => (st.1 ++ [packet_bytes maintype subtype message st.2 num n], st.2 + 1))
      (acc, messageId)
    = (acc ++ (List.range k).map
        (fun n => packet_bytes maintype subtype message (messageId + n) num n),
       messageId + k) := by
  induction k with
  | zero => simp
  | succ k ih =>
      rw [List.range_succ, List.foldl_append, ih, List.map_append]
      simp [List.append_assoc]
      omega

/-- Closed form of the encoder: frame `n` is `packet_bytes` at sequence number
`messageId + n`, and the counter advances by the number of frames. -/
lemma generate_message_packets_eq (maintype subtype : Nat) (message : List Nat)
    (messageId : Nat) :
    generate_message_packets maintype subtype message messageId
    = ((List.range (num_packets message)).map
        (fun n => packet_bytes maintype subtype message (messageId + n)
          (num_packets message) n),
       messageId + num_packets message) := by
  unfold generate_message_packets
  rw [generate_foldl_aux]
  simp

lemma length_le_mul_num_packets (message : List Nat) :
    message.length ≤ max_packet_size * num_packets message := by
  unfold num_packets max_packet_size MTU
  have h := Nat.div_add_mod (message.length + 122 - 1) 122
  have h2 := Nat.mod_lt (message.length + 122 - 1) (show 0 < 122 by norm_num)
  omega

lemma mul_pred_num_packets_lt (message : List Nat) (h : 0 < message.length) :
    max_packet_size * (num_packets message - 1) < message.length := by
  unfold num_packets max_packet_size MTU
  have h1 := Nat.div_add_mod (message.length + 122 - 1) 122
  have h2 := Nat.mod_lt (message.length + 122 - 1) (show 0 < 122 by norm_num)
  omega

lemma flatten_chunks (message : List Nat) (k : Nat) :
    ((List.range k).map (fun n => chunk message n)).flatten
      = message.take (k * max_packet_size) := by
  induction k with
  | zero => simp
  | succ k ih =>
      rw [List.range_succ, List.map_append, List.flatten_append, ih]
      simp only [List.map_cons, List.map_nil, List.flatten_cons, List.flatten_nil,
        List.append_nil, chunk]
      rw [Nat.succ_mul, List.take_add]

lemma flatten_all_chunks (message : List Nat) :
    ((List.range (num_packets message)).map (fun n => chunk message n)).flatten
      = message := by
  rw [flatten_chunks, Nat.mul_comm]
  exact List.take_of_length_le (length_le_mul_num_packets message)

lemma num_packets_pos (message : List Nat) (h : 0 < message.length) :
    0 < num_packets message := by
  unfold num_packets max_packet_size MTU
  have h1 := Nat.div_add_mod (message.length + 122 - 1) 122
  have h2 := Nat.mod_lt (message.length + 122 - 1) (show 0 < 122 by norm_num)
  omega

/-- Credential derivation at the top of `subscribe` (lines 166-169).
`md5_hexdigest` and `sha256_hexdigest` stand for the external `hashlib`
primitives `lambda s: md5(s.encode()).hexdigest()` and
`lambda s: sha256(s.encode()).hexdigest()` (lowercase hex digests); the code
under verification is the string composition around them. -/
def derive_credentials (md5_hexdigest sha256_hexdigest : String → String)
    (user_id email : String) : String × String :=
  let username := email ++ "__letpot_v3"
  let password := sha256_hexdigest (user_id ++ "|" ++ md5_hexdigest username)
  (username, password)

/-- Transport failure `aiomqtt.MqttError` as classified by the handler in `subscribe`
(lines 197-204): either a plain transport error, or an `MqttCodeError`
carrying a broker return code `rc`. -/
inductive MqttFailure where
  | plain
  | code (rc : Nat)
deriving DecidableEq

/-- Events driving the life-cycle loop of `subscribe` (lines 170-216). -/
inductive SessionEvent where
  | connect_success
  | publish_message (message : List Nat)
  | transport_error (err : MqttFailure)
deriving DecidableEq

/-- The mutable per-connection state of `LetPotDeviceClient` used by
`subscribe`: `self._message_id` (line 40), `self._connection_attempts`
(line 38) and whether `self._client` is set (line 37). -/
structure SessionState where
  message_id : Nat
  connection_attempts : Nat
  has_client : Bool
deriving DecidableEq

/-- Observable effects of one life-cycle step: the new state, the frames
published (for a `_publish` call), the backoff sleep performed (line 214),
and whether `LetPotAuthenticationException` was raised (line 204). -/
structure StepOutcome where
  state : SessionState
  published : List (List Nat)
  sleep_seconds : Option Nat
  auth_error_raised : Bool
deriving DecidableEq

/-- The recoverable branch of the `except aiomqtt.MqttError` handler
(lines 206-214): increment `self._connection_attempts`, sleep
`min(self._connection_attempts * 15, 600)` seconds, loop back to connect.
`self._client` was already cleared at line 198. -/
def reconnect_outcome (s : SessionState) : StepOutcome :=
  { state := { s with has_client := false
                      connection_attempts := s.connection_attempts + 1 },
    published := [],
    sleep_seconds := some (min ((s.connection_attempts + 1) * 15) 600),
    auth_error_raised := false }

/-- One step of the `subscribe` life-cycle loop (lines 170-216):
`connect_success` is the body after the connection context is entered
(lines 187-189: store client, reset both counters); `publish_message m` is a
`_publish(m)` while connected (maintype 1, subtype 19, line 126);
`transport_error err` is the `except aiomqtt.MqttError` handler: codes
4, 5, 134, 135 raise `LetPotAuthenticationException` (lines 200-204), every
other error backs off and reconnects. -/
def session_step (s : SessionState) (e : SessionEvent) : StepOutcome :=
  match e with
  | .connect_success =>
      { state := { message_id := 0, connection_attempts := 0, has_client := true },
        published := [], sleep_seconds := none, auth_error_raised := false }
  | .publish_message m =>
      let r := generate_message_packets 1 19 m s.message_id
      { state := { s with message_id := r.2 }, published := r.1,
        sleep_seconds := none, auth_error_raised := false }
  | .transport_error err =>
      match err with
      | .code rc =>
          if rc ∈ [4, 5, 134, 135] then
            { state := { s with has_client := false }, published := [],
              sleep_seconds := none, auth_error_raised := true }
          else
            reconnect_outcome s
      | .plain => reconnect_outcome s

/-- Run the life-cycle step over a list of events, collecting the backoff
sleep of each step (used to read off the reconnect-delay sequence). -/
def run_session (s : SessionState) (events : List SessionEvent) :
    SessionState × List (Option Nat) :=
  events.foldl
    (fun acc e =>
      let o := session_step acc.1 e
      (o.state, acc.2 ++ [o.sleep_seconds]))
    (s, [])

/-- Modelled from the spec: a time-of-day value for the light schedule
(`letpot.models` is not part of the sources under verification; design §3
lists light schedule start/end as time-of-day fields). -/
structure TimeOfDay where
  hour : Nat
  minute : Nat
deriving DecidableEq

/-- Modelled from the spec: `LetPotDeviceStatus` lives in `letpot.models`,
which is not part of the sources under verification.  Design §3 lists its
minimum contents: power on/off, light mode, light brightness, light schedule
start/end, plant-day counter, pump mode, alarm sound on/off.  It is an
immutable value object; `dataclasses.replace` is the structure-update below. -/
structure LetPotDeviceStatus where
  system_on : Bool
  light_mode : Nat
  light_brightness : Nat
  light_schedule_start : TimeOfDay
  light_schedule_end : TimeOfDay
  plant_days : Nat
  pump_mode : Nat
  system_sound : Bool
deriving DecidableEq

/-- Function `_get_publish_status` (lines 132-139): pending update if set, else last
confirmed status, else raise `LetPotException`. -/
def get_publish_status {α : Type} (update_status last_status : Option α) :
    Except String α :=
  match update_status with
  | some s => Except.ok s
  | none =>
      match last_status with
      | some s => Except.ok s
      | none => Except.error ("Client doesn\x27t have a status for publishing")

/-- Function `get_light_brightness_levels` (lines 218-223): empty list without a
converter, otherwise the converter-reported list (`converter_levels` is
`some` of that list when `self._converter` is set). -/
def get_light_brightness_levels (converter_levels : Option (List Nat)) :
    List Nat :=
  match converter_levels with
  | none => []
  | some levels => levels

/-- Function `_publish_status` (lines 147-162) as far as state goes: raises without a
converter or client; otherwise stores `status` as the pending update
(`self._update_status = status`, line 158) and publishes the converter-encoded
message.  The 5-second expiry timer is real time and outside this embedding. -/
def publish_status (has_converter has_client : Bool)
    (status : LetPotDeviceStatus) : Except String (Option LetPotDeviceStatus) :=
  if ¬ has_converter ∨ ¬ has_client then
    Except.error ("Missing converter/client to publish message with")
  else
    Except.ok (some status)

/-- Function `set_light_brightness` (lines 225-233) up to the status handed to
`_publish_status`: reject a level outside `get_light_brightness_levels`, else
replace only the `light_brightness` field of the baseline. -/
def set_light_brightness (converter_levels : Option (List Nat)) (level : Nat)
    (update_status last_status : Option LetPotDeviceStatus) :
    Except String LetPotDeviceStatus :=
  if level ∉ get_light_brightness_levels converter_levels then
    Except.error ("Device doesn\x27t support setting light brightness to "
      ++ toString level)
  else
    (get_publish_status update_status last_status).map
      (fun s => { s with light_brightness := level })

/-- Function `set_light_mode` (lines 235-238), status computation. -/
def set_light_mode (mode : Nat)
    (update_status last_status : Option LetPotDeviceStatus) :
    Except String LetPotDeviceStatus :=
  (get_publish_status update_status last_status).map
    (fun s => { s with light_mode := mode })

/-- Function `set_light_schedule` (lines 240-250), status computation: a `none`
argument keeps the baseline's schedule field. -/
def set_light_schedule (start end_ : Option TimeOfDay)
    (update_status last_status : Option LetPotDeviceStatus) :
    Except String LetPotDeviceStatus :=
  (get_publish_status update_status last_status).map
    (fun s => { s with light_schedule_start := start.getD s.light_schedule_start,
                       light_schedule_end := end_.getD s.light_schedule_end })

/-- Function `set_plant_days` (lines 252-255), status computation. -/
def set_plant_days (days : Nat)
    (update_status last_status : Option LetPotDeviceStatus) :
    Except String LetPotDeviceStatus :=
  (get_publish_status update_status last_status).map
    (fun s => { s with plant_days := days })

/-- Function `set_power` (lines 257-260), status computation. -/
def set_power (on_ : Bool)
    (update_status last_status : Option LetPotDeviceStatus) :
    Except String LetPotDeviceStatus :=
  (get_publish_status update_status last_status).map
    (fun s => { s with system_on := on_ })

/-- Function `set_pump_mode` (lines 262-267), status computation. -/
def set_pump_mode (on_ : Bool)
    (update_status last_status : Option LetPotDeviceStatus) :
    Except String LetPotDeviceStatus :=
  (get_publish_status update_status last_status).map
    (fun s => { s with pump_mode := if on_ then 1 else 0 })

/-- Function `set_sound` (lines 269-272), status computation. -/
def set_sound (on_ : Bool)
    (update_status last_status : Option LetPotDeviceStatus) :
    Except String LetPotDeviceStatus :=
  (get_publish_status update_status last_status).map
    (fun s => { s with system_sound := on_ })

/-- One iteration of the dispatch loop `_handle_messages` (lines 108-118):
`convert_hex_to_status` is the external converter; on a decoded status the
pending update is cleared, the status becomes `last_status`, and the callback
fires with it (third component); otherwise nothing changes and the callback
does not fire. -/
def handle_message {Status : Type} (convert_hex_to_status : List Nat → Option Status)
    (update_status last_status : Option Status) (payload : List Nat) :
    (Option Status × Option Status) × Option Status :=
  match convert_hex_to_status payload with
  | some status => ((none, some status), some status)
  | none => ((update_status, last_status), none)

/-- The dispatch loop over a stream of payloads, collecting the callback
invocations in order. -/
def handle_messages {Status : Type} (convert_hex_to_status : List Nat → Option Status)
    (update_status last_status : Option Status) (payloads : List (List Nat)) :
    (Option Status × Option Status) × List Status :=
  payloads.foldl
    (fun acc payload =>
      let r := handle_message convert_hex_to_status acc.1.1 acc.1.2 payload
      (r.1, acc.2 ++ r.2.toList))
    ((update_status, last_status), [])

/-- Function `_publish` (lines 120-130): raises without a client, otherwise frames the
message under maintype 1 / subtype 19 and emits one wire publish per frame to
`{device_serial}/cmd`, in order. -/
def publish (has_client : Bool) (device_serial : String) (message : List Nat)
    (messageId : Nat) : Except String (List (String × String) × Nat) :=
  if ¬ has_client then
    Except.error ("Missing client to publish message with")
  else
    let r := generate_message_packets_wire 1 19 message messageId
    Except.ok (r.1.map (fun m => (device_serial ++ "/cmd", m)), r.2)

/-- C1: for every payload `p` with `len(p) > MTU - 6` (MTU = 128),
`_generate_message_packets` produces `ceil(len(p) / (MTU - 6))` frames (the
count is `(len + (MTU-6) - 1) / (MTU-6)`, the unique `k` with
`(MTU-6)*(k-1) < len ≤ (MTU-6)*k`); every frame except the last has
continuation flag byte 16 and carries the total payload length split as
`(len % 256, len // 256)` immediately before its chunk, its length byte is
its chunk length + 4; the last frame has continuation flag 0 and length byte
equal to its chunk length; and concatenating all chunks in order
reconstructs `p` exactly. -/
theorem claim_C1 (maintype subtype : Nat) (p : List Nat) (messageId : Nat)
    (hp : MTU - 6 < p.length) :
    max_packet_size = MTU - 6 ∧
    (generate_message_packets maintype subtype p messageId).1.length
      = (p.length + max_packet_size - 1) / max_packet_size ∧
    max_packet_size * (num_packets p - 1) < p.length ∧
    p.length ≤ max_packet_size * num_packets p ∧
    (∀ i, i < num_packets p - 1 →
      (generate_message_packets maintype subtype p messageId).1[i]? =
        some ([(subtype <<< 2) ||| maintype, 16, messageId + i,
               (chunk p i).length + 4, p.length % 256, p.length / 256]
              ++ chunk p i)) ∧
    (generate_message_packets maintype subtype p messageId).1[num_packets p - 1]? =
      some ([(subtype <<< 2) ||| maintype, 0, messageId + (num_packets p - 1),
             (chunk p (num_packets p - 1)).length]
            ++ chunk p (num_packets p - 1)) ∧
    ((List.range (num_packets p)).map (fun n => chunk p n)).flatten = p := by
  have hpos : 0 < p.length := by
    have h6 : (0 : Nat) < MTU - 6 := by norm_num [MTU]
    omega
  have hnum : 0 < num_packets p := num_packets_pos p hpos
  rw [generate_message_packets_eq]
  refine ⟨rfl, by simp [num_packets], mul_pred_num_packets_lt p hpos,
    length_le_mul_num_packets p, ?_, ?_, flatten_all_chunks p⟩
  · intro i hi
    have hi' : i < num_packets p := by omega
    simp [List.getElem?_map, List.getElem?_range, hi', packet_bytes, hi]
  · have hlt : num_packets p - 1 < num_packets p := by omega
    simp [List.getElem?_map, List.getElem?_range, hlt, packet_bytes]

set_option maxRecDepth 8000 in
theorem claim_C1_witness :
    MTU - 6 < (List.replicate 130 7).length ∧
    (generate_message_packets 1 19 (List.replicate 130 7) 0).1[0]? =
      some ([(19 <<< 2) ||| 1, 16, 0 + 0, (chunk (List.replicate 130 7) 0).length + 4,
             (List.replicate 130 7).length % 256, (List.replicate 130 7).length / 256]
            ++ chunk (List.replicate 130 7) 0) ∧
    ((List.range (num_packets (List.replicate 130 7))).map
      (fun n => chunk (List.replicate 130 7) n)).flatten = List.replicate 130 7 :=
  ⟨by decide,
   (claim_C1 1 19 (List.replicate 130 7) 0 (by decide)).2.2.2.2.1 0 (by decide),
   (claim_C1 1 19 (List.replicate 130 7) 0 (by decide)).2.2.2.2.2.2⟩

/-- C2 counterexample: the claim includes the empty payload, but on the empty
payload (whose length is ≤ MTU - 6) `_generate_message_packets` computes
`num_packets = 0` and emits zero frames, not exactly one. -/
theorem claim_C2_counterexample :
    ([] : List Nat).length ≤ MTU - 6 ∧
    (generate_message_packets 1 19 ([] : List Nat) 0).1.length = 0 ∧
    ¬ (generate_message_packets 1 19 ([] : List Nat) 0).1.length = 1 := by
  decide

/-- C2 (amended: for every NONEMPTY payload `p` with `len(p) ≤ MTU - 6`):
`_generate_message_packets` produces exactly one frame, whose continuation
flag byte is 0 and whose length byte equals `len(p)`; the empty payload
produces zero frames. -/
theorem claim_C2 (maintype subtype : Nat) (p : List Nat) (messageId : Nat)
    (h1 : 0 < p.length) (h2 : p.length ≤ MTU - 6) :
    (generate_message_packets maintype subtype p messageId).1 =
      [[(subtype <<< 2) ||| maintype, 0, messageId, p.length] ++ p] := by
  have h2' : p.length ≤ 122 := by simpa [MTU] using h2
  have hnum : num_packets p = 1 := by
    unfold num_packets max_packet_size MTU
    omega
  have hchunk : chunk p 0 = p := by
    unfold chunk max_packet_size MTU
    simpa using List.take_of_length_le h2'
  have hrange : List.range 1 = [0] := rfl
  rw [generate_message_packets_eq, hnum, hrange]
  simp [packet_bytes, hchunk]

theorem claim_C2_witness :
    0 < ([3, 5, 8] : List Nat).length ∧ ([3, 5, 8] : List Nat).length ≤ MTU - 6 ∧
    (generate_message_packets 1 19 ([3, 5, 8] : List Nat) 4).1 =
      [[(19 <<< 2) ||| 1, 0, 4, ([3, 5, 8] : List Nat).length] ++ [3, 5, 8]] :=
  ⟨by decide, by decide, claim_C2 1 19 [3, 5, 8] 4 (by decide) (by decide)⟩

/-- C3: the derived transport credentials are
`username = email ++ "__letpot_v3"` and `password = sha256_hex(user_id ++ "|"
++ md5_hex(username))` (both hex digests lowercase, supplied by hashlib), and
the derivation is deterministic in `(user_id, email)`. -/
theorem claim_C3 (md5_hexdigest sha256_hexdigest : String → String)
    (user_id email : String) :
    (derive_credentials md5_hexdigest sha256_hexdigest user_id email).1
      = email ++ "__letpot_v3" ∧
    (derive_credentials md5_hexdigest sha256_hexdigest user_id email).2
      = sha256_hexdigest (user_id ++ "|" ++ md5_hexdigest (email ++ "__letpot_v3")) ∧
    ∀ u e, u = user_id → e = email →
      derive_credentials md5_hexdigest sha256_hexdigest u e
        = derive_credentials md5_hexdigest sha256_hexdigest user_id email := by
  refine ⟨rfl, rfl, ?_⟩
  intro u e hu he
  rw [hu, he]

theorem claim_C3_witness :
    (derive_credentials (fun s => s) (fun s => s) "uid" "a@b").1
      = "a@b" ++ "__letpot_v3" ∧
    derive_credentials (fun s => s) (fun s => s) "uid" "a@b"
      = derive_credentials (fun s => s) (fun s => s) "uid" "a@b" :=
  ⟨(claim_C3 (fun s => s) (fun s => s) "uid" "a@b").1,
   (claim_C3 (fun s => s) (fun s => s) "uid" "a@b").2.2 "uid" "a@b" rfl rfl⟩

/-- C10 (implicit): for the empty payload `_generate_message_packets` returns
an empty list — zero frames —, `_publish` publishes nothing for that message,
and the sequence counter is left unchanged. -/
theorem claim_C10 (device_serial : String) (messageId : Nat) :
    generate_message_packets 1 19 [] messageId = ([], messageId) ∧
    publish true device_serial [] messageId = Except.ok ([], messageId) := by
  exact ⟨rfl, rfl⟩

/-- C4: byte 2 of each frame is the sequence counter, incremented once per
emitted frame: within one `_generate_message_packets` call frame `i` carries
`messageId + i` (strictly increasing, no gaps); the returned counter is the
old counter plus the number of frames, so successive calls within one
connection continue without a gap; `connect_success` resets the counter to 0
and is the only life-cycle event that does so. -/
theorem claim_C4 (maintype subtype : Nat) (p : List Nat) (messageId : Nat) :
    (∀ i, i < (generate_message_packets maintype subtype p messageId).1.length →
      ((generate_message_packets maintype subtype p messageId).1[i]?.bind
        (fun f => f[2]?)) = some (messageId + i)) ∧
    (generate_message_packets maintype subtype p messageId).2
      = messageId + (generate_message_packets maintype subtype p messageId).1.length ∧
    (∀ s : SessionState,
      (session_step s SessionEvent.connect_success).state.message_id = 0) ∧
    (∀ (s : SessionState) (e : SessionEvent), 0 < s.message_id →
      (session_step s e).state.message_id = 0 → e = SessionEvent.connect_success) := by
  refine ⟨?_, ?_, fun s => rfl, ?_⟩
  · intro i hi
    rw [generate_message_packets_eq] at hi ⊢
    simp only [List.length_map, List.length_range] at hi
    simp only [List.getElem?_map, List.getElem?_range, hi, if_pos]
    by_cases h : i < num_packets p - 1 <;> simp [packet_bytes, h]
  · rw [generate_message_packets_eq]
    simp
  · intro s e hpos h0
    cases e with
    | connect_success => rfl
    | publish_message m =>
        rw [show (session_step s (SessionEvent.publish_message m)).state.message_id
              = (generate_message_packets 1 19 m s.message_id).2 from rfl,
            generate_message_packets_eq] at h0
        omega
    | transport_error err =>
        cases err with
        | plain =>
            simp [session_step, reconnect_outcome] at h0
            omega
        | code rc =>
            by_cases hrc : rc ∈ [4, 5, 134, 135] <;>
              simp [session_step, reconnect_outcome, hrc] at h0 <;> omega

theorem claim_C4_witness :
    ((generate_message_packets 1 19 [1, 2, 3] 5).1[0]?.bind
      (fun f => f[2]?)) = some (5 + 0) ∧
    SessionEvent.connect_success = SessionEvent.connect_success :=
  ⟨(claim_C4 1 19 [1, 2, 3] 5).1 0 (by decide),
   (claim_C4 1 19 [1, 2, 3] 5).2.2.2 ⟨3, 0, true⟩ SessionEvent.connect_success
     (by decide) (by decide)⟩

/-- C5: `_get_publish_status` returns the pending update when one exists,
else the last confirmed status when one exists, else raises the
"no status for publishing" error; consequently every `set_*` call made
before any status exists fails. -/
theorem claim_C5 (α : Type) (u l : α) (ls : Option α) :
    get_publish_status (some u) ls = Except.ok u ∧
    get_publish_status (none : Option α) (some l) = Except.ok l ∧
    get_publish_status (none : Option α) (none : Option α)
      = Except.error ("Client doesn\x27t have a status for publishing") ∧
    ∀ (converter_levels : Option (List Nat)) (level mode days : Nat)
      (start end_ : Option TimeOfDay) (b : Bool),
      (∃ msg, set_light_brightness converter_levels level none none
        = Except.error msg) ∧
      set_light_mode mode none none
        = Except.error ("Client doesn\x27t have a status for publishing") ∧
      set_light_schedule start end_ none none
        = Except.error ("Client doesn\x27t have a status for publishing") ∧
      set_plant_days days none none
        = Except.error ("Client doesn\x27t have a status for publishing") ∧
      set_power b none none
        = Except.error ("Client doesn\x27t have a status for publishing") ∧
      set_pump_mode b none none
        = Except.error ("Client doesn\x27t have a status for publishing") ∧
      set_sound b none none
        = Except.error ("Client doesn\x27t have a status for publishing") := by
  refine ⟨rfl, rfl, rfl, ?_⟩
  intro converter_levels level mode days start end_ b
  refine ⟨?_, rfl, rfl, rfl, rfl, rfl, rfl⟩
  by_cases h : level ∈ get_light_brightness_levels converter_levels
  · exact ⟨"Client doesn\x27t have a status for publishing",
      by simp [set_light_brightness, h, get_publish_status, Except.map]⟩
  · exact ⟨"Device doesn\x27t support setting light brightness to " ++ toString level,
      by simp [set_light_brightness, h]⟩

/-- C6: a transport error whose broker return code is one of 4 (bad
username/password), 5 (not authorized), 134, 135 (the MQTT v5 counterparts)
raises the terminal authentication error with no backoff sleep, while every
other transport error — any other code, or a codeless MQTT error — backs off
for the computed delay and reconnects, surfacing no error. -/
theorem claim_C6 (s : SessionState) (rc : Nat) :
    (rc ∈ [4, 5, 134, 135] →
      (session_step s (SessionEvent.transport_error
        (MqttFailure.code rc))).auth_error_raised = true ∧
      (session_step s (SessionEvent.transport_error
        (MqttFailure.code rc))).sleep_seconds = none) ∧
    (rc ∉ [4, 5, 134, 135] →
      (session_step s (SessionEvent.transport_error
        (MqttFailure.code rc))).auth_error_raised = false ∧
      (session_step s (SessionEvent.transport_error
        (MqttFailure.code rc))).sleep_seconds
        = some (min ((s.connection_attempts + 1) * 15) 600)) ∧
    (session_step s (SessionEvent.transport_error
      MqttFailure.plain)).auth_error_raised = false ∧
    (session_step s (SessionEvent.transport_error
      MqttFailure.plain)).sleep_seconds
      = some (min ((s.connection_attempts + 1) * 15) 600) := by
  refine ⟨fun h => ?_, fun h => ?_, rfl, rfl⟩
  · constructor <;> simp [session_step, h]
  · constructor <;> simp [session_step, reconnect_outcome, h]

theorem claim_C6_witness :
    (session_step ⟨0, 0, false⟩ (SessionEvent.transport_error
      (MqttFailure.code 5))).auth_error_raised = true ∧
    (session_step ⟨2, 3, false⟩ (SessionEvent.transport_error
      (MqttFailure.code 7))).sleep_seconds = some (min ((3 + 1) * 15) 600) :=
  ⟨((claim_C6 ⟨0, 0, false⟩ 5).1 (by decide)).1,
   ((claim_C6 ⟨2, 3, false⟩ 7).2.1 (by decide)).2⟩

/-- C7: each recoverable transport failure increments the
consecutive-failure counter and sleeps `min(count * 15, 600)` seconds; no
computed delay exceeds 600; from a fresh connection five consecutive
failures sleep exactly 15, 30, 45, 60, 75 seconds; a successful connection
resets the counter to zero. -/
theorem claim_C7 (s : SessionState) :
    (session_step s (SessionEvent.transport_error
      MqttFailure.plain)).state.connection_attempts
      = s.connection_attempts + 1 ∧
    (session_step s (SessionEvent.transport_error
      MqttFailure.plain)).sleep_seconds
      = some (min ((s.connection_attempts + 1) * 15) 600) ∧
    (∀ e d, (session_step s e).sleep_seconds = some d → d ≤ 600) ∧
    (run_session ⟨0, 0, true⟩ (List.replicate 5
      (SessionEvent.transport_error MqttFailure.plain))).2
      = [some 15, some 30, some 45, some 60, some 75] ∧
    (session_step s SessionEvent.connect_success).state.connection_attempts = 0 := by
  refine ⟨rfl, rfl, ?_, by decide, rfl⟩
  intro e d h
  cases e with
  | connect_success => simp [session_step] at h
  | publish_message m => simp [session_step] at h
  | transport_error err =>
      cases err with
      | plain =>
          simp [session_step, reconnect_outcome] at h
          omega
      | code rc =>
          by_cases hrc : rc ∈ [4, 5, 134, 135] <;>
            simp [session_step, reconnect_outcome, hrc] at h
          omega

theorem claim_C7_witness :
    (session_step ⟨0, 4, false⟩ (SessionEvent.transport_error
      MqttFailure.plain)).state.connection_attempts = 4 + 1 ∧
    (75 : Nat) ≤ 600 :=
  ⟨(claim_C7 ⟨0, 4, false⟩).1,
   (claim_C7 ⟨0, 4, false⟩).2.2.1
     (SessionEvent.transport_error MqttFailure.plain) 75 (by decide)⟩

/-- C8: `set_light_brightness(level)` fails with the unsupported-level error
whenever `level` is not in `get_light_brightness_levels()`; otherwise, given
a baseline status (and an active converter and client for the publish), it
succeeds, and the status it publishes and registers as pending is the
baseline with only the `light_brightness` field replaced — every other field
unchanged. -/
theorem claim_C8 (converter_levels : Option (List Nat)) (level : Nat)
    (update_status last_status : Option LetPotDeviceStatus)
    (base : LetPotDeviceStatus) :
    (level ∉ get_light_brightness_levels converter_levels →
      set_light_brightness converter_levels level update_status last_status
        = Except.error ("Device doesn\x27t support setting light brightness to "
            ++ toString level)) ∧
    (level ∈ get_light_brightness_levels converter_levels →
      get_publish_status update_status last_status = Except.ok base →
      set_light_brightness converter_levels level update_status last_status
        = Except.ok { base with light_brightness := level } ∧
      ({ base with light_brightness := level } : LetPotDeviceStatus).light_brightness
        = level ∧
      ({ base with light_brightness := level } : LetPotDeviceStatus).system_on
        = base.system_on ∧
      ({ base with light_brightness := level } : LetPotDeviceStatus).light_mode
        = base.light_mode ∧
      ({ base with light_brightness := level } : LetPotDeviceStatus).light_schedule_start
        = base.light_schedule_start ∧
      ({ base with light_brightness := level } : LetPotDeviceStatus).light_schedule_end
        = base.light_schedule_end ∧
      ({ base with light_brightness := level } : LetPotDeviceStatus).plant_days
        = base.plant_days ∧
      ({ base with light_brightness := level } : LetPotDeviceStatus).pump_mode
        = base.pump_mode ∧
      ({ base with light_brightness := level } : LetPotDeviceStatus).system_sound
        = base.system_sound ∧
      publish_status true true { base with light_brightness := level }
        = Except.ok (some { base with light_brightness := level })) := by
  constructor
  · intro h
    simp [set_light_brightness, h]
  · intro h hb
    refine ⟨?_, rfl, rfl, rfl, rfl, rfl, rfl, rfl, rfl, by simp [publish_status]⟩
    simp [set_light_brightness, h, hb, Except.map]

theorem claim_C8_witness :
    set_light_brightness (some [1, 2, 3]) 2 none
      (some ⟨true, 0, 1, ⟨6, 30⟩, ⟨22, 0⟩, 12, 1, false⟩)
      = Except.ok { (⟨true, 0, 1, ⟨6, 30⟩, ⟨22, 0⟩, 12, 1, false⟩ :
          LetPotDeviceStatus) with light_brightness := 2 } ∧
    set_light_brightness (some [1, 2, 3]) 9 none
      (some ⟨true, 0, 1, ⟨6, 30⟩, ⟨22, 0⟩, 12, 1, false⟩)
      = Except.error ("Device doesn\x27t support setting light brightness to "
          ++ toString 9) :=
  ⟨((claim_C8 (some [1, 2, 3]) 2 none
      (some ⟨true, 0, 1, ⟨6, 30⟩, ⟨22, 0⟩, 12, 1, false⟩)
      ⟨true, 0, 1, ⟨6, 30⟩, ⟨22, 0⟩, 12, 1, false⟩).2 (by decide) rfl).1,
   (claim_C8 (some [1, 2, 3]) 9 none
      (some ⟨true, 0, 1, ⟨6, 30⟩, ⟨22, 0⟩, 12, 1, false⟩)
      ⟨true, 0, 1, ⟨6, 30⟩, ⟨22, 0⟩, 12, 1, false⟩).1 (by decide)⟩

/-- C9: for each inbound payload handled by the dispatch loop: when the
converter decodes it to a status, the pending update is cleared, the decoded
status becomes the last confirmed status, and the callback fires with it;
when the converter yields no status the payload is ignored and nothing
changes. -/
theorem claim_C9 (Status : Type) (convert : List Nat → Option Status)
    (update_status last_status : Option Status) (payload : List Nat) :
    (∀ st, convert payload = some st →
      handle_message convert update_status last_status payload
        = ((none, some st), some st)) ∧
    (convert payload = none →
      handle_message convert update_status last_status payload
        = ((update_status, last_status), none)) := by
  constructor
  · intro st h
    simp [handle_message, h]
  · intro h
    simp [handle_message, h]

theorem claim_C9_witness :
    handle_message (fun l => if l = [1] then some 7 else none)
      (some 3) (some 4) [1] = ((none, some 7), some 7) ∧
    handle_message (fun l => if l = [1] then some 7 else none)
      (some 3) (some 4) [2] = ((some 3, some 4), none) :=
  ⟨(claim_C9 Nat (fun l => if l = [1] then some 7 else none)
      (some 3) (some 4) [1]).1 7 (by decide),
   (claim_C9 Nat (fun l => if l = [1] then some 7 else none)
      (some 3) (some 4) [2]).2 (by decide)⟩

end LetPot
